import Mathlib

/-!
Shallow embedding of the authentication core of the picksLeaguesApi
repository: the token service, the session service, the OAuth callback
coordinator, and the persisted storage layout (migration DDL).

Time is modelled as milliseconds since the epoch (a `Nat`), matching the
numeric comparison of JavaScript `Date` objects.  Database tables are
lists of records; a drizzle `select ... where` with `const [x] = ...`
destructuring is `List.find?`, an `update ... where` is `List.map` with a
conditional record update, and a `delete ... where` is `List.filter` on
the complement of the predicate.
-/

namespace PicksLeague

/-- One second in epoch milliseconds. -/
def msPerSecond : Nat := 1000

/-- `REFRESH_TOKEN_EXPIRES_IN = 30 * 24 * 60 * 60` (30 days in seconds). -/
def REFRESH_TOKEN_EXPIRES_IN : Nat := 30 * 24 * 60 * 60

/-- `ACCESS_TOKEN_EXPIRES_IN = '1h'` (a jsonwebtoken duration string). -/
def ACCESS_TOKEN_EXPIRES_IN : String := "1h"

/-- `SESSION_DURATION = 24 * 60 * 60` (24 hours in seconds). -/
def SESSION_DURATION : Nat := 24 * 60 * 60

/-- A row of the `users` table (schema.ts `users`). -/
structure UserRec where
  id : String
  provider : String
  providerId : String
  email : String
  name : String
  createdAt : Nat
deriving DecidableEq, Repr

/-- A row of the `refresh_tokens` table (schema.ts `refreshTokens`). -/
structure RefreshTokenRec where
  id : String
  userId : String
  token : String
  expiresAt : Nat
  isRevoked : Bool
  createdAt : Nat
deriving DecidableEq, Repr

/-- The session `data` jsonb blob as the coordinator writes it:
`{ provider, email, name, lastLogin: new Date() }`. -/
structure SessionData where
  provider : String
  email : String
  name : String
  lastLogin : Nat
deriving DecidableEq, Repr

/-- A row of the `sessions` table (schema.ts `sessions`). -/
structure SessionRec where
  id : String
  userId : String
  data : SessionData
  expiresAt : Nat
  createdAt : Nat
  lastAccessedAt : Nat
deriving DecidableEq, Repr

/-- The payload of a signed access token: `jwt.sign({ userId, provider }, …)`.
The signature itself is external crypto; the payload and validity window are
what the service determines. -/
structure AccessTokenPayload where
  userId : String
  provider : String
deriving DecidableEq, Repr

/-! ## TokenService (token-service.ts) -/

/-- Return shape of `TokenService.generateTokens`:
`{ accessToken, refreshToken, expiresIn: REFRESH_TOKEN_EXPIRES_IN }`.
Note `expiresIn` is a number (seconds). -/
structure GenerateTokensResult where
  accessToken : AccessTokenPayload
  refreshToken : String
  expiresIn : Nat
deriving DecidableEq, Repr

/-- Return shape of `TokenService.refreshAccessToken`:
`{ accessToken, expiresIn: ACCESS_TOKEN_EXPIRES_IN }`.
Note `expiresIn` is the string `'1h'`. -/
structure RefreshResult where
  accessToken : AccessTokenPayload
  expiresIn : String
deriving DecidableEq, Repr

/-- Errors thrown by `TokenService.refreshAccessToken`
(`throw new Error('Invalid refresh token')` / `throw new Error('User not found')`);
the `/auth/refresh` route maps any of them to a 401 `Invalid refresh token`. -/
inductive TokenError where
  | invalidRefreshToken
  | userNotFound
deriving DecidableEq, Repr

/-- `TokenService.generateTokens(userId, provider)`: signs an access token with
payload `{userId, provider}`, mints an opaque refresh token (the fresh random
UUID is a parameter here), stores it with `expiresAt = now + 30 days` and the
database defaults `isRevoked = false`, `createdAt = now`, and returns
`{ accessToken, refreshToken, expiresIn: REFRESH_TOKEN_EXPIRES_IN }`.
`newId` stands for the row's generated uuid primary key. -/
def generateTokens (userId provider : String) (freshToken newId : String)
    (now : Nat) (tokens : List RefreshTokenRec) :
    GenerateTokensResult × List RefreshTokenRec :=
  let expiresAt := now + REFRESH_TOKEN_EXPIRES_IN * msPerSecond
  let rec_ : RefreshTokenRec :=
    { id := newId, userId := userId, token := freshToken,
      expiresAt := expiresAt, isRevoked := false, createdAt := now }
  ({ accessToken := { userId := userId, provider := provider },
     refreshToken := freshToken,
     expiresIn := REFRESH_TOKEN_EXPIRES_IN },
   tokens ++ [rec_])

/-- `TokenService.refreshAccessToken(refreshToken)`: selects the first row with
`token = refreshToken AND isRevoked = false AND expiresAt < now` (the source
uses `lt(refreshTokens.expiresAt, new Date())`), throws
`Invalid refresh token` if none, then looks up the owning user and throws
`User not found` if absent; otherwise signs a new access token and returns
`{ accessToken, expiresIn: ACCESS_TOKEN_EXPIRES_IN }`.  No store mutation. -/
def refreshAccessToken (refreshToken : String) (now : Nat)
    (tokens : List RefreshTokenRec) (users : List UserRec) :
    Except TokenError RefreshResult :=
  match tokens.find? (fun r =>
      r.token == refreshToken && r.isRevoked == false &&
        decide (r.expiresAt < now)) with
  | none => .error .invalidRefreshToken
  | some tokenRec =>
    match users.find? (fun u => u.id == tokenRec.userId) with
    | none => .error .userNotFound
    | some user =>
      .ok { accessToken := { userId := user.id, provider := user.provider },
            expiresIn := ACCESS_TOKEN_EXPIRES_IN }

/-- `TokenService.revokeRefreshToken(refreshToken)`: updates
`set isRevoked = true where token = refreshToken`; returns nothing and never
throws for a missing match. -/
def revokeRefreshToken (refreshToken : String)
    (tokens : List RefreshTokenRec) : List RefreshTokenRec :=
  tokens.map (fun r =>
    if r.token == refreshToken then { r with isRevoked := true } else r)

/-- `TokenService.cleanupExpiredTokens()`: deletes rows where
`expiresAt < now OR isRevoked = true` (the source uses
`or(lt(refreshTokens.expiresAt, new Date()), eq(refreshTokens.isRevoked, true))`). -/
def cleanupExpiredTokens (now : Nat)
    (tokens : List RefreshTokenRec) : List RefreshTokenRec :=
  tokens.filter (fun r => !(decide (r.expiresAt < now) || r.isRevoked))

/-! ## SessionService (session-service.ts) -/

/-- `SessionService.createSession(userId, data)`: inserts a session with
`expiresAt = now + 24h` and the database defaults `createdAt = now`,
`lastAccessedAt = now`, returning the inserted row.  `newId` stands for the
generated uuid primary key. -/
def createSession (userId : String) (data : SessionData) (newId : String)
    (now : Nat) (sessions : List SessionRec) :
    SessionRec × List SessionRec :=
  let s : SessionRec :=
    { id := newId, userId := userId, data := data,
      expiresAt := now + SESSION_DURATION * msPerSecond,
      createdAt := now, lastAccessedAt := now }
  (s, sessions ++ [s])

/-- `SessionService.getSession(sessionId)`: selects the row; returns `null`
if absent or `session.expiresAt < new Date()`; otherwise updates the stored
row's `lastAccessedAt` to now and returns the row object fetched before the
update. -/
def getSession (sessionId : String) (now : Nat)
    (sessions : List SessionRec) : Option SessionRec × List SessionRec :=
  match sessions.find? (fun s => s.id == sessionId) with
  | none => (none, sessions)
  | some session =>
    if session.expiresAt < now then
      (none, sessions)
    else
      (some session,
       sessions.map (fun s =>
         if s.id == sessionId then { s with lastAccessedAt := now } else s))

/-- `SessionService.extendSession(sessionId)`: unconditionally updates
`set expiresAt = now + 24h, lastAccessedAt = now where id = sessionId`,
returning the first updated row (or `null` when no row matched).  There is
no check that the session is unexpired. -/
def extendSession (sessionId : String) (now : Nat)
    (sessions : List SessionRec) : Option SessionRec × List SessionRec :=
  let updated := sessions.map (fun s =>
    if s.id == sessionId then
      { s with expiresAt := now + SESSION_DURATION * msPerSecond,
               lastAccessedAt := now }
    else s)
  (updated.find? (fun s => s.id == sessionId), updated)

/-! ## OAuth Exchange Coordinator (routes.ts callback handler) -/

/-- An entry of the in-memory `states` map:
`states.set(state, { codeVerifier, state, provider })`. -/
structure PendingExchange where
  codeVerifier : String
  state : String
  provider : String
deriving DecidableEq, Repr

/-- The `states` map, as an association list keyed by the state value. -/
abbrev StatesMap := List (String × PendingExchange)

/-- `states.get(k)`. -/
def statesGet (k : String) (m : StatesMap) : Option PendingExchange :=
  (m.find? (fun p => p.1 == k)).map Prod.snd

/-- `states.delete(k)`. -/
def statesDelete (k : String) (m : StatesMap) : StatesMap :=
  m.filter (fun p => p.1 != k)

/-- The normalized provider profile `{ email, name, sub }` produced by the
code-exchange plus user-info fetch (Discord and OIDC branches both normalize
to this shape before any database access). -/
structure UserInfo where
  email : String
  name : String
  sub : String
deriving DecidableEq, Repr

/-- Error outcomes of the callback handler: 400 `Invalid provider`,
400 `Invalid state`, 500 `Authentication failed`. -/
inductive AuthError where
  | invalidProvider
  | invalidState
  | authenticationFailed
deriving DecidableEq, Repr

/-- The 200 response of the callback: `{ ...tokens, sessionId }`. -/
structure LoginResponse where
  accessToken : AccessTokenPayload
  refreshToken : String
  expiresIn : Nat
  sessionId : String
deriving DecidableEq, Repr

/-- The whole mutable state the callback handler touches: the in-memory
`states` map and the three database tables. -/
structure AppState where
  states : StatesMap
  users : List UserRec
  refreshTokens : List RefreshTokenRec
  sessions : List SessionRec
deriving Repr

/-- The configured provider set (`OAuthClients` has fields `google` and
`discord`; `clients[provider]` is defined exactly for these keys). -/
def knownProviders : List String := ["google", "discord"]

/-- The find-or-create block of the callback handler: selects
`where eq(users.providerId, userInfoJson.sub)` — the `where` clause matches
on `providerId` only, not on the `(provider, providerId)` pair — takes the
first row, and when none exists inserts a new user built from the path's
provider and the normalized profile, returning its generated id.  Returns
the resolved user id and the updated table. -/
def findOrCreateUser (provider sub email name newUserId : String)
    (now : Nat) (users : List UserRec) : String × List UserRec :=
  match users.find? (fun u => u.providerId == sub) with
  | none =>
    (newUserId,
     users ++ [{ id := newUserId, provider := provider, providerId := sub,
                 email := email, name := name, createdAt := now }])
  | some u => (u.id, users)

/-- `GET /auth/callback/:provider` — the `completeLogin` operation.

`exchange` stands for the outcome of the provider code-exchange followed by
the user-info fetch (both external network calls, jointly throwing or
yielding a normalized `{email, name, sub}` profile); `newUserId`,
`freshToken`, `tokenRowId`, `newSessionId` stand for the uuids generated on
the success path.  Mirrors the handler line by line:

1. unknown provider → 400 `Invalid provider` (before the state lookup);
2. `states.get(state)` missing, or its recorded provider differs from the
   path's provider → 400 `Invalid state`, nothing removed;
3. `try`: run the exchange; a throw is caught and answered with 500
   `Authentication failed`;
4. find user by `providerId = sub` (the `where` clause matches on
   `users.providerId` only); create one when absent;
5. `generateTokens`, `createSession`, respond with tokens and session id;
6. `finally`: `states.delete(storedState.state)` on both the success and
   the catch path. -/
def completeLogin (provider callbackState : String)
    (exchange : Except Unit UserInfo)
    (newUserId freshToken tokenRowId newSessionId : String)
    (now : Nat) (st : AppState) : Except AuthError LoginResponse × AppState :=
  if !(knownProviders.contains provider) then
    (.error .invalidProvider, st)
  else
    match statesGet callbackState st.states with
    | none => (.error .invalidState, st)
    | some storedState =>
      if storedState.provider != provider then
        (.error .invalidState, st)
      else
        match exchange with
        | .error _ =>
          (.error .authenticationFailed,
           { st with states := statesDelete storedState.state st.states })
        | .ok userInfoJson =>
          let resolved :=
            findOrCreateUser provider userInfoJson.sub userInfoJson.email
              userInfoJson.name newUserId now st.users
          let userId := resolved.1
          let issued :=
            generateTokens userId provider freshToken tokenRowId now
              st.refreshTokens
          let created :=
            createSession userId
              { provider := provider, email := userInfoJson.email,
                name := userInfoJson.name, lastLogin := now }
              newSessionId now st.sessions
          (.ok { accessToken := issued.1.accessToken,
                 refreshToken := issued.1.refreshToken,
                 expiresIn := issued.1.expiresIn,
                 sessionId := created.1.id },
           { states := statesDelete storedState.state st.states,
             users := resolved.2, refreshTokens := issued.2,
             sessions := created.2 })

/-! ## Persisted storage layout (drizzle/migrations/0000_nice_agent_brand.sql) -/

/-- A table constraint appearing in the migration DDL. -/
inductive TableConstraint where
  | primaryKey (cols : List String)
  | foreignKey (cols : List String) (refTable : String) (refCols : List String)
  | uniqueCols (cols : List String)
deriving DecidableEq, Repr

/-- A table of the migration: its name, columns, and constraints. -/
structure TableDef where
  name : String
  columns : List String
  constraints : List TableConstraint
deriving DecidableEq, Repr

/-- `CREATE TABLE "users" (...)`: uuid pk, provider, provider_id, email,
name, created_at; the only constraint is the primary key on id. -/
def usersTable : TableDef :=
  { name := "users",
    columns := ["id", "provider", "provider_id", "email", "name", "created_at"],
    constraints := [.primaryKey ["id"]] }

/-- `CREATE TABLE "refresh_tokens" (...)` plus the `ALTER TABLE ... ADD
CONSTRAINT refresh_tokens_user_id_users_id_fk` statement. -/
def refreshTokensTable : TableDef :=
  { name := "refresh_tokens",
    columns := ["id", "user_id", "token", "expires_at", "is_revoked",
                "created_at"],
    constraints := [.primaryKey ["id"],
                    .foreignKey ["user_id"] "users" ["id"]] }

/-- `CREATE TABLE "sessions" (...)` plus its foreign-key `ALTER TABLE`. -/
def sessionsTable : TableDef :=
  { name := "sessions",
    columns := ["id", "user_id", "data", "expires_at", "created_at",
                "last_accessed_at"],
    constraints := [.primaryKey ["id"],
                    .foreignKey ["user_id"] "users" ["id"]] }

/-- A table enforces uniqueness on a column set when a primary-key or unique
constraint covers exactly those columns (as a set). -/
def enforcesUnique (t : TableDef) (cols : List String) : Bool :=
  t.constraints.any (fun c =>
    match c with
    | .primaryKey cs => cs.all cols.contains && cols.all cs.contains
    | .uniqueCols cs => cs.all cols.contains && cols.all cs.contains
    | .foreignKey _ _ _ => false)

/-! ## Claim C1: refresh-token validity window -/

/-- A stored refresh token that is matching, non-revoked, and unexpired at
time 1000 (it expires at 2000). -/
def c1Token : RefreshTokenRec :=
  { id := "rtrow1", userId := "u1", token := "rt1",
    expiresAt := 2000, isRevoked := false, createdAt := 0 }

/-- The owning user of `c1Token`. -/
def c1User : UserRec :=
  { id := "u1", provider := "google", providerId := "sub1",
    email := "a@b.com", name := "A", createdAt := 0 }

/-- C1: the claim says `refreshAccessToken` succeeds iff a matching,
non-revoked, non-expired record with an existing owner is stored.  The code
instead filters with `lt(refreshTokens.expiresAt, new Date())`, so the
matching, non-revoked, NOT-expired token `rt1` (owner present) is rejected
with `Invalid refresh token`, while the same token once expired (now = 3000
past `expiresAt` = 2000) is accepted.  The code contradicts its own comment
`// Find valid refresh token` and the repository's documented refresh-token
semantics; the comparison is inverted. -/
theorem refreshAccessToken_rejects_unexpired_token :
    c1Token.token = "rt1" ∧ c1Token.isRevoked = false ∧
    1000 < c1Token.expiresAt ∧ c1User.id = c1Token.userId ∧
    refreshAccessToken "rt1" 1000 [c1Token] [c1User] =
      .error .invalidRefreshToken ∧
    refreshAccessToken "rt1" 3000 [c1Token] [c1User] =
      .ok { accessToken := { userId := "u1", provider := "google" },
            expiresIn := "1h" } :=
  ⟨rfl, rfl, by decide, rfl, rfl, rfl⟩

/-! ## Claim C4: storage-layer uniqueness constraints -/

/-- C4 counterexample: the migration declares no uniqueness constraint on
`users (provider, provider_id)` and none on `refresh_tokens.token`; the
only constraints are the primary keys on `id` and the `user_id` foreign
keys, so the claimed storage-enforced uniqueness (and any
`DuplicateIdentity` surfacing of its violation) does not exist. -/
theorem migration_lacks_unique_constraints :
    enforcesUnique usersTable ["provider", "provider_id"] = false ∧
    enforcesUnique refreshTokensTable ["token"] = false := by
  decide

/-- C4 amended: the persisted layout's constraints are exactly a primary
key on `id` for each table and foreign keys from `refresh_tokens.user_id`
and `sessions.user_id` to `users.id`; uniqueness is enforced only on `id`,
not on `(provider, provider_id)` and not on the token value. -/
theorem migration_constraint_inventory :
    usersTable.constraints = [.primaryKey ["id"]] ∧
    refreshTokensTable.constraints =
      [.primaryKey ["id"], .foreignKey ["user_id"] "users" ["id"]] ∧
    sessionsTable.constraints =
      [.primaryKey ["id"], .foreignKey ["user_id"] "users" ["id"]] ∧
    enforcesUnique usersTable ["id"] = true ∧
    enforcesUnique refreshTokensTable ["id"] = true ∧
    enforcesUnique usersTable ["provider", "provider_id"] = false ∧
    enforcesUnique refreshTokensTable ["token"] = false := by
  decide

/-! ## Claim C5: cleanup window boundary -/

/-- A non-revoked refresh token whose expiry instant equals the cleanup
instant 1000, i.e. `expiresAt <= now` holds but `expiresAt < now` does not. -/
def c5Token : RefreshTokenRec :=
  { id := "r1", userId := "u1", token := "t1",
    expiresAt := 1000, isRevoked := false, createdAt := 0 }

/-- C5 counterexample: the claim says every record with
`expiresAt <= now OR revoked` is deleted, but a non-revoked record whose
`expiresAt` equals now survives `cleanupExpiredTokens` (the source deletes
with the strict `lt(refreshTokens.expiresAt, new Date())`). -/
theorem cleanup_keeps_boundary_token :
    c5Token.expiresAt ≤ 1000 ∧ c5Token.isRevoked = false ∧
    cleanupExpiredTokens 1000 [c5Token] = [c5Token] := by
  decide

/-- C5 amended: `cleanupExpiredTokens` deletes exactly the records with
`expiresAt < now OR revoked = true` (strict comparison) and leaves every
other record unchanged (the survivors are the original records, in order). -/
theorem cleanup_deletes_exactly_strict (now : Nat)
    (ts : List RefreshTokenRec) :
    (∀ r, r ∈ cleanupExpiredTokens now ts ↔
      r ∈ ts ∧ ¬(r.expiresAt < now ∨ r.isRevoked = true)) ∧
    List.Sublist (cleanupExpiredTokens now ts) ts := by
  constructor
  · intro r
    simp [cleanupExpiredTokens, List.mem_filter, not_or]
  · exact List.filter_sublist ts

/-- C5 amended witness at a concrete store and instant. -/
theorem cleanup_deletes_exactly_strict_witness :
    (c5Token ∈ cleanupExpiredTokens 500 [c5Token] ↔
      c5Token ∈ [c5Token] ∧
        ¬(c5Token.expiresAt < 500 ∨ c5Token.isRevoked = true)) ∧
    List.Sublist (cleanupExpiredTokens 500 [c5Token]) [c5Token] :=
  ⟨(cleanup_deletes_exactly_strict 500 [c5Token]).1 c5Token,
   (cleanup_deletes_exactly_strict 500 [c5Token]).2⟩

/-! ## Claim C10: expiresIn types and units -/

/-- An expired (at now = 1000), non-revoked token so that the code's
refresh path succeeds. -/
def c10Token : RefreshTokenRec :=
  { id := "r1", userId := "u1", token := "t1",
    expiresAt := 500, isRevoked := false, createdAt := 0 }

/-- The owning user of `c10Token`. -/
def c10User : UserRec :=
  { id := "u1", provider := "google", providerId := "s1",
    email := "e", name := "n", createdAt := 0 }

/-- The successful refresh result for `c10Token`. -/
def c10Result : RefreshResult :=
  { accessToken := { userId := "u1", provider := "google" },
    expiresIn := "1h" }

/-- C10: `generateTokens` always returns `expiresIn = 2592000`
(`REFRESH_TOKEN_EXPIRES_IN`, the 30-day refresh window in seconds, a
number), while every successful `refreshAccessToken` returns
`expiresIn = "1h"` (`ACCESS_TOKEN_EXPIRES_IN`, a duration string): the two
operations return `expiresIn` with different types and units. -/
theorem expiresIn_units_mismatch :
    REFRESH_TOKEN_EXPIRES_IN = 2592000 ∧
    ACCESS_TOKEN_EXPIRES_IN = "1h" ∧
    (∀ userId provider freshToken newId now tokens,
      (generateTokens userId provider freshToken newId now tokens).1.expiresIn
        = 2592000) ∧
    (∀ refreshToken now tokens users r,
      refreshAccessToken refreshToken now tokens users = .ok r →
      r.expiresIn = "1h") := by
  refine ⟨rfl, rfl, fun _ _ _ _ _ _ => rfl, ?_⟩
  intro rt now ts us r h
  unfold refreshAccessToken at h
  split at h
  · cases h
  · split at h
    · cases h
    · injection h with h2
      subst h2
      rfl

/-- C10 witness: concrete token generation and a concrete successful
refresh. -/
theorem expiresIn_units_mismatch_witness :
    (generateTokens "u1" "google" "t2" "r2" 1000 []).1.expiresIn = 2592000 ∧
    c10Result.expiresIn = "1h" :=
  ⟨expiresIn_units_mismatch.2.2.1 "u1" "google" "t2" "r2" 1000 [],
   expiresIn_units_mismatch.2.2.2 "t1" 1000 [c10Token] [c10User] c10Result rfl⟩

/-! ## Claim C6: getSession semantics -/

/-- A session created at time 0 with the 24h window: `expiresAt` is
86400000 ms and `lastAccessedAt` is 0. -/
def c6Session : SessionRec :=
  { id := "sess1", userId := "u1",
    data := { provider := "discord", email := "a@b.com", name := "A",
              lastLogin := 0 },
    expiresAt := 86400000, createdAt := 0, lastAccessedAt := 0 }

/-- C6 counterexample: fetching the session 23 hours (82800000 ms) after
creation returns the row fetched before the update, whose `lastAccessedAt`
is still 0, not the fetch time — the stored record is bumped, but the
returned session does not carry `lastAccessedAt` updated to the fetch time.
Moreover at `now = expiresAt` the session is still returned, so usability
is `expiresAt ≥ now`, not the claimed `expiresAt > now`. -/
theorem getSession_returns_stale_lastAccessedAt :
    (getSession "sess1" 82800000 [c6Session]).1 = some c6Session ∧
    c6Session.lastAccessedAt = 0 ∧ ¬((0 : Nat) = 82800000) ∧
    (getSession "sess1" 82800000 [c6Session]).2 =
      [{ c6Session with lastAccessedAt := 82800000 }] ∧
    (getSession "sess1" c6Session.expiresAt [c6Session]).1 =
      some c6Session := by
  refine ⟨rfl, rfl, by decide, rfl, rfl⟩

/-- C6 amended: `getSession` returns not-found (not an error) when the
session is missing or `expiresAt < now` (usable iff `expiresAt ≥ now`); on
a found, non-expired session it bumps the stored record's `lastAccessedAt`
to the fetch time as an observable side effect, but the session value
returned to the caller is the row as fetched, carrying the previous
`lastAccessedAt`. -/
theorem getSession_characterization (sid : String) (now : Nat)
    (ss : List SessionRec) :
    (ss.find? (fun r => r.id == sid) = none →
      getSession sid now ss = (none, ss)) ∧
    (∀ s, ss.find? (fun r => r.id == sid) = some s → s.expiresAt < now →
      getSession sid now ss = (none, ss)) ∧
    (∀ s, ss.find? (fun r => r.id == sid) = some s → ¬s.expiresAt < now →
      (getSession sid now ss).1 = some s ∧
      ∀ r ∈ (getSession sid now ss).2, r.id = sid →
        r.lastAccessedAt = now) := by
  refine ⟨?_, ?_, ?_⟩
  · intro h
    simp [getSession, h]
  · intro s hs hexp
    simp [getSession, hs, hexp]
  · intro s hs hexp
    constructor
    · simp [getSession, hs, hexp]
    · intro r hr hid
      simp only [getSession, hs, if_neg hexp, List.mem_map] at hr
      obtain ⟨a, _, ha⟩ := hr
      by_cases hcase : a.id = sid
      · simp [hcase] at ha
        subst ha
        rfl
      · simp [hcase] at ha
        subst ha
        exact absurd hid hcase

/-- C6 amended witness: the 23-hour fetch of the concrete session. -/
theorem getSession_characterization_witness :
    (getSession "sess1" 82800000 [c6Session]).1 = some c6Session :=
  ((getSession_characterization "sess1" 82800000 [c6Session]).2.2 c6Session
    rfl (by decide)).1

/-! ## Claim C8: revocation idempotence -/

/-- C8: `revokeRefreshToken` marks every matching record `revoked = true`,
leaves non-matching records unchanged, is a no-op on a store with no
matching token (so revoking a nonexistent token changes nothing and is not
an error — the operation is total), and applying it twice equals applying
it once. -/
theorem revokeRefreshToken_idempotent :
    (∀ t ts, revokeRefreshToken t (revokeRefreshToken t ts) =
      revokeRefreshToken t ts) ∧
    (∀ t ts, (∀ r ∈ ts, r.token ≠ t) → revokeRefreshToken t ts = ts) ∧
    (∀ t ts r, r ∈ ts → r.token = t →
      { r with isRevoked := true } ∈ revokeRefreshToken t ts) ∧
    (∀ t ts r, r ∈ ts → r.token ≠ t → r ∈ revokeRefreshToken t ts) := by
  refine ⟨?_, ?_, ?_, ?_⟩
  · intro t ts
    induction ts with
    | nil => rfl
    | cons hd tl ih =>
      by_cases h : hd.token = t
      · simpa [revokeRefreshToken, h] using ih
      · simpa [revokeRefreshToken, h] using ih
  · intro t ts h
    induction ts with
    | nil => rfl
    | cons hd tl ih =>
      have hhd : hd.token ≠ t := h hd (List.mem_cons_self hd tl)
      have htl := ih (fun r hr => h r (List.mem_cons_of_mem hd hr))
      simpa [revokeRefreshToken, hhd] using htl
  · intro t ts r hr hrt
    have hmem := List.mem_map_of_mem
      (fun r : RefreshTokenRec =>
        if r.token == t then { r with isRevoked := true } else r) hr
    simpa [revokeRefreshToken, hrt] using hmem
  · intro t ts r hr hrt
    have hmem := List.mem_map_of_mem
      (fun r : RefreshTokenRec =>
        if r.token == t then { r with isRevoked := true } else r) hr
    simpa [revokeRefreshToken, hrt] using hmem

/-- A stored token matching the revoked value `t1`. -/
def c8Token : RefreshTokenRec :=
  { id := "r1", userId := "u1", token := "t1",
    expiresAt := 9000, isRevoked := false, createdAt := 0 }

/-- A stored token not matching the revoked value `t1`. -/
def c8Other : RefreshTokenRec :=
  { id := "r2", userId := "u1", token := "x9",
    expiresAt := 9000, isRevoked := false, createdAt := 0 }

/-- C8 witness: concrete double revocation, no-op on a non-matching store,
marking of a matching record, preservation of a non-matching record. -/
theorem revokeRefreshToken_idempotent_witness :
    revokeRefreshToken "t1" (revokeRefreshToken "t1" [c8Token]) =
      revokeRefreshToken "t1" [c8Token] ∧
    revokeRefreshToken "t1" [c8Other] = [c8Other] ∧
    { c8Token with isRevoked := true } ∈ revokeRefreshToken "t1" [c8Token] ∧
    c8Other ∈ revokeRefreshToken "t1" [c8Other] :=
  ⟨revokeRefreshToken_idempotent.1 "t1" [c8Token],
   revokeRefreshToken_idempotent.2.1 "t1" [c8Other] (by decide),
   revokeRefreshToken_idempotent.2.2.1 "t1" [c8Token] c8Token (by decide)
     (by decide),
   revokeRefreshToken_idempotent.2.2.2 "t1" [c8Other] c8Other (by decide)
     (by decide)⟩

/-! ## Claim C9: extendSession revives expired sessions -/

/-- Updating by session id preserves `find?` by that id, replacing the found
row by its updated version. -/
theorem extendSession_find? (sid : String) (now : Nat)
    (ss : List SessionRec) (s : SessionRec)
    (h : ss.find? (fun r => r.id == sid) = some s) :
    ((extendSession sid now ss).2).find? (fun r => r.id == sid) =
      some { s with expiresAt := now + SESSION_DURATION * msPerSecond,
                    lastAccessedAt := now } := by
  induction ss with
  | nil => cases h
  | cons hd tl ih =>
    by_cases h1 : hd.id = sid
    · rw [List.find?_cons_of_pos _ (by simpa using h1)] at h
      cases h
      simp [extendSession, List.find?_cons_of_pos, h1]
    · rw [List.find?_cons_of_neg _ (by simpa using h1)] at h
      have := ih h
      simp only [extendSession] at this ⊢
      simpa [List.find?_cons_of_neg, h1] using this

/-- C9: for every session id present in the store, `extendSession`
unconditionally resets `expiresAt` to now + 24 hours (86400000 ms) and
bumps `lastAccessedAt` to now — the hypothesis places no condition on the
session's current expiry, so an expired-but-not-yet-swept session is
covered — and afterwards `getSession` at the same instant finds the
session again (it has been made usable). -/
theorem extendSession_unconditional (sid : String) (now : Nat)
    (ss : List SessionRec) (s : SessionRec)
    (h : ss.find? (fun r => r.id == sid) = some s) :
    (extendSession sid now ss).1 =
      some { s with expiresAt := now + SESSION_DURATION * msPerSecond,
                    lastAccessedAt := now } ∧
    (∀ r ∈ (extendSession sid now ss).2, r.id = sid →
      r.expiresAt = now + SESSION_DURATION * msPerSecond ∧
      r.lastAccessedAt = now) ∧
    ((getSession sid now (extendSession sid now ss).2).1).isSome = true := by
  have hfind := extendSession_find? sid now ss s h
  refine ⟨?_, ?_, ?_⟩
  · exact hfind
  · intro r hr hid
    simp only [extendSession, List.mem_map] at hr
    obtain ⟨a, _, ha⟩ := hr
    by_cases hcase : a.id = sid
    · simp [hcase] at ha
      subst ha
      exact ⟨rfl, rfl⟩
    · simp [hcase] at ha
      subst ha
      exact absurd hid hcase
  · have hnotlt : ¬(now + SESSION_DURATION * msPerSecond < now) := by
      omega
    simp [getSession, hfind, hnotlt]

/-- An already-expired session (expiry 500, well before the fetch at
1000) that no cleanup sweep has deleted yet. -/
def c9Session : SessionRec :=
  { id := "sess1", userId := "u1",
    data := { provider := "google", email := "e", name := "n",
              lastLogin := 0 },
    expiresAt := 500, createdAt := 0, lastAccessedAt := 0 }

/-- C9 witness: extending the concrete expired session at time 1000 resets
its window and makes `getSession` find it again. -/
theorem extendSession_unconditional_witness :
    c9Session.expiresAt < 1000 ∧
    ((extendSession "sess1" 1000 [c9Session]).1 =
      some { c9Session with
               expiresAt := 1000 + SESSION_DURATION * msPerSecond,
               lastAccessedAt := 1000 } ∧
     ((getSession "sess1" 1000
        (extendSession "sess1" 1000 [c9Session]).2).1).isSome = true) :=
  ⟨by decide,
   (extendSession_unconditional "sess1" 1000 [c9Session] c9Session rfl).1,
   (extendSession_unconditional "sess1" 1000 [c9Session] c9Session rfl).2.2⟩

/-! ## Claim C2: single-use state values -/

/-- Deleting a key from the states map makes lookups of that key fail. -/
theorem statesGet_statesDelete (k : String) (m : StatesMap) :
    statesGet k (statesDelete k m) = none := by
  unfold statesGet statesDelete
  rw [List.find?_eq_none.mpr]
  · rfl
  · intro x hx
    rw [List.mem_filter] at hx
    simpa using hx.2

/-- The pending exchange registered for state `s1` targets provider
`google`. -/
def c2Pending : PendingExchange :=
  { codeVerifier := "v1", state := "s1", provider := "google" }

/-- A normalized provider profile used on the success path. -/
def c2Info : UserInfo := { email := "a@b.com", name := "A", sub := "sub1" }

/-- The app state right after `beginLogin` registered `s1`. -/
def c2Start : AppState :=
  { states := [("s1", c2Pending)], users := [], refreshTokens := [],
    sessions := [] }

/-- The app state after a first callback for `s1` that named provider
`discord` while the stored entry targets `google`. -/
def c2AfterMismatch : AppState :=
  (completeLogin "discord" "s1" (.ok c2Info) "u1" "rt1" "row1" "sess1" 1000
    c2Start).2

/-- C2 counterexample: a callback presenting state `s1` with provider
`discord` (while the entry was registered for `google`) is an exit of
`completeLogin` failing with `InvalidState`, yet the PendingExchange entry
for `s1` is NOT removed on that exit path, and a second callback
presenting the very same state value then succeeds instead of failing with
`InvalidState` — the state value is consumed on the second attempt. -/
theorem completeLogin_state_survives_mismatch :
    (completeLogin "discord" "s1" (.ok c2Info) "u1" "rt1" "row1" "sess1"
      1000 c2Start).1 = .error .invalidState ∧
    statesGet "s1" c2AfterMismatch.states = some c2Pending ∧
    (completeLogin "google" "s1" (.ok c2Info) "u1" "rt1" "row1" "sess1"
      1000 c2AfterMismatch).1 =
      .ok { accessToken := { userId := "u1", provider := "google" },
            refreshToken := "rt1", expiresIn := 2592000,
            sessionId := "sess1" } :=
  ⟨rfl, rfl, rfl⟩

/-- C2 amended: on every exit path of `completeLogin` that passes state
validation (a PendingExchange is registered under the presented state and
its recorded provider matches the path's provider), the entry is removed —
on success and on exchange failure alike — and any later callback
presenting the same state value fails with `InvalidState`.  When
validation itself fails (unknown state or provider mismatch), nothing is
removed and the state value remains consumable. -/
theorem completeLogin_consumes_validated_state
    (provider cs : String) (exchange : Except Unit UserInfo)
    (nu ft tr ns : String) (now : Nat) (st : AppState)
    (pending : PendingExchange)
    (hprov : provider ∈ knownProviders)
    (hget : statesGet cs st.states = some pending)
    (hmatch : pending.provider = provider)
    (hkey : pending.state = cs) :
    statesGet cs
      ((completeLogin provider cs exchange nu ft tr ns now st).2).states =
      none ∧
    ∀ provider2 exchange2 nu2 ft2 tr2 ns2 now2,
      provider2 ∈ knownProviders →
      (completeLogin provider2 cs exchange2 nu2 ft2 tr2 ns2 now2
        (completeLogin provider cs exchange nu ft tr ns now st).2).1 =
        .error .invalidState := by
  have hstates :
      ((completeLogin provider cs exchange nu ft tr ns now st).2).states =
        statesDelete cs st.states := by
    cases exchange with
    | error e => simp [completeLogin, hprov, hget, hmatch, hkey]
    | ok info => simp [completeLogin, hprov, hget, hmatch, hkey]
  have hnone : statesGet cs
      ((completeLogin provider cs exchange nu ft tr ns now st).2).states =
      none := by
    rw [hstates]
    exact statesGet_statesDelete cs st.states
  refine ⟨hnone, ?_⟩
  intro p2 e2 nu2 ft2 tr2 ns2 now2 hp2
  set st2 := (completeLogin provider cs exchange nu ft tr ns now st).2
    with hst2
  simp [completeLogin, hp2, hnone]

/-- C2 amended witness: the concrete validated `google` callback consumes
`s1`, and the replayed callback fails with `InvalidState`. -/
theorem completeLogin_consumes_validated_state_witness :
    statesGet "s1"
      ((completeLogin "google" "s1" (.ok c2Info) "u1" "rt1" "row1" "sess1"
        1000 c2Start).2).states = none ∧
    (completeLogin "google" "s1" (.ok c2Info) "u2" "rt2" "row2" "sess2"
      2000 (completeLogin "google" "s1" (.ok c2Info) "u1" "rt1" "row1"
        "sess1" 1000 c2Start).2).1 = .error .invalidState :=
  ⟨(completeLogin_consumes_validated_state "google" "s1" (.ok c2Info)
      "u1" "rt1" "row1" "sess1" 1000 c2Start c2Pending (by decide) rfl rfl rfl).1,
   (completeLogin_consumes_validated_state "google" "s1" (.ok c2Info)
      "u1" "rt1" "row1" "sess1" 1000 c2Start c2Pending (by decide) rfl rfl rfl).2
     "google" (.ok c2Info) "u2" "rt2" "row2" "sess2" 2000 (by decide)⟩

/-! ## Shared lemmas on the success path of the callback -/

/-- If no element of `l₁` satisfies `p`, searching `l₁ ++ l₂` is searching
`l₂`. -/
theorem find?_append_of_none {α : Type} (p : α → Bool) (l₁ l₂ : List α)
    (h : l₁.find? p = none) : (l₁ ++ l₂).find? p = l₂.find? p := by
  induction l₁ with
  | nil => rfl
  | cons hd tl ih =>
    by_cases hp : p hd
    · rw [List.find?_cons_of_pos _ hp] at h
      cases h
    · rw [List.find?_cons_of_neg _ hp] at h
      rw [List.cons_append, List.find?_cons_of_neg _ hp]
      exact ih h

/-- When a user with the wanted `providerId` already exists,
`findOrCreateUser` returns its id and leaves the table unchanged. -/
theorem findOrCreateUser_found (provider sub email name nid : String)
    (now : Nat) (users : List UserRec) (u : UserRec)
    (h : users.find? (fun v => v.providerId == sub) = some u) :
    findOrCreateUser provider sub email name nid now users =
      (u.id, users) := by
  simp [findOrCreateUser, h]

/-- After `findOrCreateUser`, a lookup by the same `providerId` finds a row
whose id is the resolved user id. -/
theorem findOrCreateUser_resolves (provider sub email name nid : String)
    (now : Nat) (users : List UserRec) :
    (((findOrCreateUser provider sub email name nid now users).2).find?
        (fun v => v.providerId == sub)).map (fun v => v.id) =
      some (findOrCreateUser provider sub email name nid now users).1 := by
  unfold findOrCreateUser
  cases h : users.find? (fun v => v.providerId == sub) with
  | some u => simp [h]
  | none =>
    simp only [h]
    rw [find?_append_of_none _ _ _ h]
    simp

/-- Explicit form of a validated callback whose exchange succeeds: the
response carries the resolved user id, the fresh refresh token, the
refresh window, and the new session id; the state entry is deleted, the
users table is the find-or-create result, and a refresh-token row and a
session row are appended. -/
theorem completeLogin_ok_spec (provider cs : String) (info : UserInfo)
    (nu ft tr ns : String) (now : Nat) (st : AppState)
    (pending : PendingExchange)
    (hprov : provider ∈ knownProviders)
    (hget : statesGet cs st.states = some pending)
    (hmatch : pending.provider = provider) :
    completeLogin provider cs (.ok info) nu ft tr ns now st =
      (.ok { accessToken :=
               { userId := (findOrCreateUser provider info.sub info.email
                   info.name nu now st.users).1,
                 provider := provider },
             refreshToken := ft,
             expiresIn := REFRESH_TOKEN_EXPIRES_IN,
             sessionId := ns },
       { states := statesDelete pending.state st.states,
         users := (findOrCreateUser provider info.sub info.email info.name
           nu now st.users).2,
         refreshTokens := st.refreshTokens ++
           [{ id := tr,
              userId := (findOrCreateUser provider info.sub info.email
                info.name nu now st.users).1,
              token := ft,
              expiresAt := now + REFRESH_TOKEN_EXPIRES_IN * msPerSecond,
              isRevoked := false, createdAt := now }],
         sessions := st.sessions ++
           [{ id := ns,
              userId := (findOrCreateUser provider info.sub info.email
                info.name nu now st.users).1,
              data := { provider := provider, email := info.email,
                        name := info.name, lastLogin := now },
              expiresAt := now + SESSION_DURATION * msPerSecond,
              createdAt := now, lastAccessedAt := now }] }) := by
  simp [completeLogin, hprov, hget, hmatch, generateTokens, createSession]

/-! ## Claim C3: user resolution key -/

/-- An existing user provisioned through Google with subject `sub1`. -/
def c3User : UserRec :=
  { id := "u1", provider := "google", providerId := "sub1",
    email := "g@x.com", name := "G", createdAt := 0 }

/-- A pending exchange registered for a Discord login. -/
def c3Pending : PendingExchange :=
  { codeVerifier := "v1", state := "s1", provider := "discord" }

/-- A Discord profile whose subject id collides with the Google user's. -/
def c3Info : UserInfo := { email := "d@x.com", name := "D", sub := "sub1" }

/-- Store holding the Google user and the Discord pending exchange. -/
def c3Start : AppState :=
  { states := [("s1", c3Pending)], users := [c3User], refreshTokens := [],
    sessions := [] }

/-- C3 counterexample: no user with the pair (discord, sub1) exists, so the
claim requires the Discord login to create a new User row; instead the
code's lookup matches on `providerId` alone, reuses the Google user `u1`,
and creates no row. -/
theorem completeLogin_ignores_provider_in_lookup :
    c3User.provider = "google" ∧ ¬(("google" : String) = "discord") ∧
    (completeLogin "discord" "s1" (.ok c3Info) "u2" "rt1" "row1" "sess1"
      1000 c3Start).1 =
      .ok { accessToken := { userId := "u1", provider := "discord" },
            refreshToken := "rt1", expiresIn := 2592000,
            sessionId := "sess1" } ∧
    ((completeLogin "discord" "s1" (.ok c3Info) "u2" "rt1" "row1" "sess1"
      1000 c3Start).2).users = [c3User] :=
  ⟨rfl, by decide, rfl, rfl⟩

/-- C3 amended: `completeLogin` resolves the local User by the profile's
`sub` (stored `providerId`) alone, ignoring the provider: an existing User
with that `providerId` is reused whatever its provider, and one is created
only when no user carries the subject id.  The stated consequence still
holds: two validated logins with identical (provider, sub) — indeed with
identical sub even across providers — never produce two User rows, and
the second login resolves to the same user id as the first. -/
theorem completeLogin_two_logins_same_sub
    (provider1 provider2 cs1 cs2 nu1 ft1 tr1 ns1 nu2 ft2 tr2 ns2 : String)
    (info1 info2 : UserInfo) (now1 now2 : Nat) (st : AppState)
    (p1 p2 : PendingExchange) (r1 r2 : LoginResponse)
    (hprov1 : provider1 ∈ knownProviders)
    (hprov2 : provider2 ∈ knownProviders)
    (hget1 : statesGet cs1 st.states = some p1)
    (hmatch1 : p1.provider = provider1)
    (hres1 : (completeLogin provider1 cs1 (.ok info1) nu1 ft1 tr1 ns1 now1
      st).1 = .ok r1)
    (hget2 : statesGet cs2
      ((completeLogin provider1 cs1 (.ok info1) nu1 ft1 tr1 ns1 now1
        st).2).states = some p2)
    (hmatch2 : p2.provider = provider2)
    (hsub : info2.sub = info1.sub)
    (hres2 : (completeLogin provider2 cs2 (.ok info2) nu2 ft2 tr2 ns2 now2
      (completeLogin provider1 cs1 (.ok info1) nu1 ft1 tr1 ns1 now1
        st).2).1 = .ok r2) :
    r2.accessToken.userId = r1.accessToken.userId ∧
    ((completeLogin provider2 cs2 (.ok info2) nu2 ft2 tr2 ns2 now2
      (completeLogin provider1 cs1 (.ok info1) nu1 ft1 tr1 ns1 now1
        st).2).2).users =
      ((completeLogin provider1 cs1 (.ok info1) nu1 ft1 tr1 ns1 now1
        st).2).users := by
  have h1 := completeLogin_ok_spec provider1 cs1 info1 nu1 ft1 tr1 ns1 now1
    st p1 hprov1 hget1 hmatch1
  rw [h1] at hres1 hget2 hres2 ⊢
  simp only [Except.ok.injEq] at hres1
  have hfind := findOrCreateUser_resolves provider1 info1.sub info1.email
    info1.name nu1 now1 st.users
  obtain ⟨u, hu, hid⟩ := Option.map_eq_some'.mp hfind
  have h2 := completeLogin_ok_spec provider2 cs2 info2 nu2 ft2 tr2 ns2 now2
    _ p2 hprov2 hget2 hmatch2
  rw [h2] at hres2 ⊢
  simp only [Except.ok.injEq] at hres2
  have hfound := findOrCreateUser_found provider2 info2.sub info2.email
    info2.name nu2 now2
    ((findOrCreateUser provider1 info1.sub info1.email info1.name nu1 now1
      st.users).2) u (by rw [hsub]; exact hu)
  constructor
  · rw [← hres2, ← hres1]
    simp only [hfound, hid]
  · simp only [hfound]

/-- Two fresh pending exchanges for two Google logins of the same external
identity. -/
def c3TwoStates : AppState :=
  { states := [("s1", { codeVerifier := "v1", state := "s1",
                        provider := "google" }),
               ("s2", { codeVerifier := "v2", state := "s2",
                        provider := "google" })],
    users := [], refreshTokens := [], sessions := [] }

/-- C3 amended witness: two concrete Google logins with subject `sub1`
resolve to the same user id and leave a single-user table. -/
theorem completeLogin_two_logins_same_sub_witness :
    ({ accessToken := { userId := "u1", provider := "google" },
       refreshToken := "rt2", expiresIn := 2592000,
       sessionId := "sess2" } : LoginResponse).accessToken.userId =
      ({ accessToken := { userId := "u1", provider := "google" },
         refreshToken := "rt1", expiresIn := 2592000,
         sessionId := "sess1" } : LoginResponse).accessToken.userId ∧
    ((completeLogin "google" "s2"
      (.ok { email := "g@x.com", name := "G", sub := "sub1" })
      "u9" "rt2" "row2" "sess2" 2000
      (completeLogin "google" "s1"
        (.ok { email := "g@x.com", name := "G", sub := "sub1" })
        "u1" "rt1" "row1" "sess1" 1000 c3TwoStates).2).2).users =
      ((completeLogin "google" "s1"
        (.ok { email := "g@x.com", name := "G", sub := "sub1" })
        "u1" "rt1" "row1" "sess1" 1000 c3TwoStates).2).users :=
  completeLogin_two_logins_same_sub "google" "google" "s1" "s2" "u1" "rt1"
    "row1" "sess1" "u9" "rt2" "row2" "sess2"
    { email := "g@x.com", name := "G", sub := "sub1" }
    { email := "g@x.com", name := "G", sub := "sub1" }
    1000 2000 c3TwoStates
    { codeVerifier := "v1", state := "s1", provider := "google" }
    { codeVerifier := "v2", state := "s2", provider := "google" }
    { accessToken := { userId := "u1", provider := "google" },
      refreshToken := "rt1", expiresIn := 2592000, sessionId := "sess1" }
    { accessToken := { userId := "u1", provider := "google" },
      refreshToken := "rt2", expiresIn := 2592000, sessionId := "sess2" }
    (by decide) (by decide) rfl rfl rfl rfl rfl rfl rfl

/-! ## Claim C7: exchange failure leaves no partial state -/

/-- C7: when the provider code-exchange or user-info fetch fails during a
validated callback, `completeLogin` fails with `AuthenticationFailed` and
leaves no partial state behind: the users, sessions and refresh-token
tables are all unchanged (only the transient state entry is consumed). -/
theorem completeLogin_exchange_failure_clean
    (provider cs : String) (e : Unit) (nu ft tr ns : String) (now : Nat)
    (st : AppState) (pending : PendingExchange)
    (hprov : provider ∈ knownProviders)
    (hget : statesGet cs st.states = some pending)
    (hmatch : pending.provider = provider) :
    (completeLogin provider cs (.error e) nu ft tr ns now st).1 =
      .error .authenticationFailed ∧
    ((completeLogin provider cs (.error e) nu ft tr ns now st).2).users =
      st.users ∧
    ((completeLogin provider cs (.error e) nu ft tr ns now st).2).sessions =
      st.sessions ∧
    ((completeLogin provider cs (.error e) nu ft tr ns now
      st).2).refreshTokens = st.refreshTokens := by
  refine ⟨?_, ?_, ?_, ?_⟩ <;> simp [completeLogin, hprov, hget, hmatch]

/-- A pending exchange and a prepopulated store for the C7 witness. -/
def c7Start : AppState :=
  { states := [("s1", { codeVerifier := "v1", state := "s1",
                        provider := "google" })],
    users := [{ id := "u1", provider := "google", providerId := "sub1",
                email := "g@x.com", name := "G", createdAt := 0 }],
    refreshTokens := [], sessions := [] }

/-- C7 witness: a concrete failed exchange surfaces `AuthenticationFailed`
and leaves users, sessions and refresh tokens untouched. -/
theorem completeLogin_exchange_failure_clean_witness :
    (completeLogin "google" "s1" (.error ()) "u2" "rt1" "row1" "sess1" 1000
      c7Start).1 = .error .authenticationFailed ∧
    ((completeLogin "google" "s1" (.error ()) "u2" "rt1" "row1" "sess1"
      1000 c7Start).2).users = c7Start.users ∧
    ((completeLogin "google" "s1" (.error ()) "u2" "rt1" "row1" "sess1"
      1000 c7Start).2).sessions = c7Start.sessions ∧
    ((completeLogin "google" "s1" (.error ()) "u2" "rt1" "row1" "sess1"
      1000 c7Start).2).refreshTokens = c7Start.refreshTokens :=
  completeLogin_exchange_failure_clean "google" "s1" () "u2" "rt1" "row1"
    "sess1" 1000 c7Start
    { codeVerifier := "v1", state := "s1", provider := "google" }
    (by decide) rfl rfl

end PicksLeague
